import Mathlib

/-!
Verification of the Nominal Token Design Pattern core header
(src/nominal3/nominal.v.3.0.h).

The header defines five components, all shallowly embedded here:

- Token: an identity handle whose default constructor draws from a
  function-local static size_t counter (incremented before use).
- Datum<T>: an unordered_map from token id to T; its subscript returns a
  function-local static default object when the id is 0, and otherwise
  default-inserts and returns the map entry.
- Static_Datum<T>: one shared T plus a subscribed set; subscript returns
  the shared value for members and the static default object otherwise.
- Solitary_Datum<T>: one T plus a single owner id (0 when unbound);
  subscript returns the value exactly when the queried id equals the owner.
- Shared_Datum<T>: a map from token id to pool id, a map from pool id to T,
  and a pool counter; subscript returns the pooled value for mapped ids and
  the static default object otherwise.
- Behavior<R(Args...)>: a std::function, a subscribed set and a current
  context field ct; subscript on a subscribed id sets ct and returns the
  stored function, and on any other id returns a function-local static
  default-constructed (hence empty) std::function without touching ct.

C++ references returned by the subscript operators are modelled as location
values; reading and writing through a location is explicit.  Each store kind
is modelled as a world holding the per-instantiation static default object
(field named invalid, shared by every instance of the same instantiation)
together with a family of instance states indexed by a natural number, which
captures that the static is shared across instances.  size_t arithmetic is
Nat arithmetic taken modulo 2 ^ 64.
-/

/-- sizeTMod is the modulus of size_t arithmetic on the assumed 64-bit
platform. -/
def sizeTMod : ℕ := 2 ^ 64

/-- tokenNext models one execution of self = ++count in Token::Token():
the static counter is incremented (size_t wrap-around included) and the new
counter value is the issued id. -/
def tokenNext (count : ℕ) : ℕ := (count + 1) % sizeTMod

/-- tokenCounter n is the value of the static counter of Token::Token()
after n constructor calls, starting from its zero initialisation. -/
def tokenCounter : ℕ → ℕ
  | 0 => 0
  | n + 1 => tokenNext (tokenCounter n)

/-- issuedToken n is the id issued by the n-th call of Token::Token()
(n is at least 1); it equals the counter value right after that call. -/
def issuedToken (n : ℕ) : ℕ := tokenCounter n

/-- DatumWorld T models the state relevant to Datum<T>: the
per-instantiation static default object of operator[], and the data map of
every instance (instance index, then key, to an optional stored value). -/
structure DatumWorld (T : Type) where
  invalid : T
  data : ℕ → ℕ → Option T

/-- DatumLoc is the target of the reference returned by
Datum<T>::operator[]: either the shared static default object, or the map
entry of instance i at key k. -/
inductive DatumLoc where
  | inv : DatumLoc
  | ent : ℕ → ℕ → DatumLoc
  deriving DecidableEq

/-- Datum.index models Datum<T>::operator[] on instance i: id 0 yields a
reference to the static default object; any other id default-inserts the
map entry (unordered_map::operator[]) and yields a reference to it. -/
def Datum.index {T : Type} [Inhabited T] (w : DatumWorld T) (i token : ℕ) :
    DatumWorld T × DatumLoc :=
  if token = 0 then (w, DatumLoc.inv)
  else
    match w.data i token with
    | some _ => (w, DatumLoc.ent i token)
    | none =>
        ({ w with data := fun j k =>
             if j = i ∧ k = token then some default else w.data j k },
         DatumLoc.ent i token)

/-- Datum.readLoc reads the value behind a Datum location. -/
def Datum.readLoc {T : Type} [Inhabited T] (w : DatumWorld T) : DatumLoc → T
  | DatumLoc.inv => w.invalid
  | DatumLoc.ent i k => (w.data i k).getD default

/-- Datum.writeLoc writes a value through a Datum location. -/
def Datum.writeLoc {T : Type} (w : DatumWorld T) : DatumLoc → T → DatumWorld T
  | DatumLoc.inv, v => { w with invalid := v }
  | DatumLoc.ent i k, v =>
      { w with data := fun j k2 =>
          if j = i ∧ k2 = k then some v else w.data j k2 }

/-- Datum.read models reading token id through operator[] (the value seen,
together with the possibly grown world). -/
def Datum.read {T : Type} [Inhabited T] (w : DatumWorld T) (i token : ℕ) :
    T × DatumWorld T :=
  let p := Datum.index w i token
  (Datum.readLoc p.1 p.2, p.1)

/-- Datum.assoc models token + datum = v (the free operator+ on Datum):
data[token] is default-inserted and then assigned v, with no check of the
id, so the net effect is that the entry of instance i at key token becomes
v. -/
def Datum.assoc {T : Type} (w : DatumWorld T) (i token : ℕ) (v : T) :
    DatumWorld T :=
  { w with data := fun j k =>
      if j = i ∧ k = token then some v else w.data j k }

/-- Datum.dissoc models v = token - datum (the free operator- on Datum):
the value of datum[token] is copied out, then data.erase(token) removes the
entry; the copy is returned. -/
def Datum.dissoc {T : Type} [Inhabited T] (w : DatumWorld T) (i token : ℕ) :
    T × DatumWorld T :=
  let p := Datum.index w i token
  (Datum.readLoc p.1 p.2,
   { p.1 with data := fun j k =>
       if j = i ∧ k = token then none else p.1.data j k })

/-- StaticWorld T models the state relevant to Static_Datum<T>: the
per-instantiation static default object, and for every instance its shared
value and its subscribed set. -/
structure StaticWorld (T : Type) where
  invalid : T
  data : ℕ → T
  tokens : ℕ → Finset ℕ

/-- StaticLoc is the target of the reference returned by
Static_Datum<T>::operator[]: the shared static default object, or the data
member of instance i. -/
inductive StaticLoc where
  | inv : StaticLoc
  | dat : ℕ → StaticLoc
  deriving DecidableEq

/-- Static.index models Static_Datum<T>::operator[] on instance i: members
of the subscribed set get a reference to the shared value, every other id
gets a reference to the static default object. -/
def Static.index {T : Type} (w : StaticWorld T) (i token : ℕ) : StaticLoc :=
  if token ∈ w.tokens i then StaticLoc.dat i else StaticLoc.inv

/-- Static.direct models operator T& of Static_Datum<T> on instance i: a
reference straight to the shared value, irrespective of membership. -/
def Static.direct (i : ℕ) : StaticLoc := StaticLoc.dat i

/-- Static.readLoc reads the value behind a Static_Datum location. -/
def Static.readLoc {T : Type} (w : StaticWorld T) : StaticLoc → T
  | StaticLoc.inv => w.invalid
  | StaticLoc.dat i => w.data i

/-- Static.writeLoc writes a value through a Static_Datum location. -/
def Static.writeLoc {T : Type} (w : StaticWorld T) : StaticLoc → T → StaticWorld T
  | StaticLoc.inv, v => { w with invalid := v }
  | StaticLoc.dat i, v =>
      { w with data := fun j => if j = i then v else w.data j }

/-- Static.read models reading token id on instance i through operator[]. -/
def Static.read {T : Type} (w : StaticWorld T) (i token : ℕ) : T :=
  Static.readLoc w (Static.index w i token)

/-- Static.subscribe models token += static_datum: tokens.insert(token). -/
def Static.subscribe {T : Type} (w : StaticWorld T) (i token : ℕ) : StaticWorld T :=
  { w with tokens := fun j =>
      if j = i then insert token (w.tokens j) else w.tokens j }

/-- Static.unsubscribe models token -= static_datum: tokens.erase(token). -/
def Static.unsubscribe {T : Type} (w : StaticWorld T) (i token : ℕ) : StaticWorld T :=
  { w with tokens := fun j =>
      if j = i then (w.tokens j).erase token else w.tokens j }

/-- SolitaryWorld T models the state relevant to Solitary_Datum<T>: the
per-instantiation static default object, and for every instance its value
and its owner id (0 when unbound, the initialised value of the field). -/
structure SolitaryWorld (T : Type) where
  invalid : T
  data : ℕ → T
  token : ℕ → ℕ

/-- SolitaryLoc is the target of the reference returned by
Solitary_Datum<T>::operator[]: the shared static default object, or the
data member of instance i. -/
inductive SolitaryLoc where
  | inv : SolitaryLoc
  | dat : ℕ → SolitaryLoc
  deriving DecidableEq

/-- Solitary.index models Solitary_Datum<T>::operator[] on instance i: the
queried id gets a reference to the value exactly when it equals the stored
owner id, and a reference to the static default object otherwise. -/
def Solitary.index {T : Type} (w : SolitaryWorld T) (i itoken : ℕ) : SolitaryLoc :=
  if itoken = w.token i then SolitaryLoc.dat i else SolitaryLoc.inv

/-- Solitary.readLoc reads the value behind a Solitary_Datum location. -/
def Solitary.readLoc {T : Type} (w : SolitaryWorld T) : SolitaryLoc → T
  | SolitaryLoc.inv => w.invalid
  | SolitaryLoc.dat i => w.data i

/-- Solitary.writeLoc writes a value through a Solitary_Datum location. -/
def Solitary.writeLoc {T : Type} (w : SolitaryWorld T) :
    SolitaryLoc → T → SolitaryWorld T
  | SolitaryLoc.inv, v => { w with invalid := v }
  | SolitaryLoc.dat i, v =>
      { w with data := fun j => if j = i then v else w.data j }

/-- Solitary.read models reading id itoken on instance i through
operator[]. -/
def Solitary.read {T : Type} (w : SolitaryWorld T) (i itoken : ℕ) : T :=
  Solitary.readLoc w (Solitary.index w i itoken)

/-- Solitary.rebind models token >> solitary_datum (the free operator>>):
the owner field is set to the token and a reference to the value is
returned. -/
def Solitary.rebind {T : Type} (w : SolitaryWorld T) (i token : ℕ) :
    SolitaryWorld T × SolitaryLoc :=
  ({ w with token := fun j => if j = i then token else w.token j },
   SolitaryLoc.dat i)

/-- SharedWorld T models the state relevant to Shared_Datum<T>: the
per-instantiation static default object, and for every instance its pools
map (token id to pool id), its data map (pool id to value) and its pool
counter. -/
structure SharedWorld (T : Type) where
  invalid : T
  pools : ℕ → ℕ → Option ℕ
  data : ℕ → ℕ → Option T
  count : ℕ → ℕ

/-- SharedLoc is the target of the reference returned by
Shared_Datum<T>::operator[]: the shared static default object, or the data
entry of instance i at pool id p. -/
inductive SharedLoc where
  | inv : SharedLoc
  | dat : ℕ → ℕ → SharedLoc
  deriving DecidableEq

/-- Shared.index models Shared_Datum<T>::operator[] on instance i: an id
with no pool mapping gets a reference to the static default object; a
mapped id default-inserts data[pools[id]] and gets a reference to it. -/
def Shared.index {T : Type} [Inhabited T] (w : SharedWorld T) (i token : ℕ) :
    SharedWorld T × SharedLoc :=
  match w.pools i token with
  | none => (w, SharedLoc.inv)
  | some p =>
      match w.data i p with
      | some _ => (w, SharedLoc.dat i p)
      | none =>
          ({ w with data := fun j q =>
               if j = i ∧ q = p then some default else w.data j q },
           SharedLoc.dat i p)

/-- Shared.readLoc reads the value behind a Shared_Datum location. -/
def Shared.readLoc {T : Type} [Inhabited T] (w : SharedWorld T) : SharedLoc → T
  | SharedLoc.inv => w.invalid
  | SharedLoc.dat i p => (w.data i p).getD default

/-- Shared.writeLoc writes a value through a Shared_Datum location. -/
def Shared.writeLoc {T : Type} (w : SharedWorld T) : SharedLoc → T → SharedWorld T
  | SharedLoc.inv, v => { w with invalid := v }
  | SharedLoc.dat i p, v =>
      { w with data := fun j q =>
          if j = i ∧ q = p then some v else w.data j q }

/-- Shared.read models reading token id on instance i through operator[]
(the value seen, together with the possibly grown world). -/
def Shared.read {T : Type} [Inhabited T] (w : SharedWorld T) (i token : ℕ) :
    T × SharedWorld T :=
  let r := Shared.index w i token
  (Shared.readLoc r.1 r.2, r.1)

/-- Shared.createPoolFor models token + shared_datum = v (the free
operator+ on Shared_Datum followed by assignment): the pool counter is
incremented with size_t wrap-around, the token is mapped to the new pool id,
and the data entry of that pool becomes v. -/
def Shared.createPoolFor {T : Type} (w : SharedWorld T) (i token : ℕ) (v : T) :
    SharedWorld T :=
  let c := (w.count i + 1) % sizeTMod
  { w with
    count := fun j => if j = i then c else w.count j,
    pools := fun j t => if j = i ∧ t = token then some c else w.pools j t,
    data := fun j q => if j = i ∧ q = c then some v else w.data j q }

/-- Shared.joinLatest models token >> shared_datum (the free operator>> on
Shared_Datum): the token is mapped to the current pool counter value,
without incrementing it. -/
def Shared.joinLatest {T : Type} (w : SharedWorld T) (i token : ℕ) : SharedWorld T :=
  { w with pools := fun j t =>
      if j = i ∧ t = token then some (w.count i) else w.pools j t }

/-- Shared.leave models v = token - shared_datum (the free operator- on
Shared_Datum): the value of datum[token] is copied out, then
pools.erase(token) removes the pool mapping; the copy is returned. -/
def Shared.leave {T : Type} [Inhabited T] (w : SharedWorld T) (i token : ℕ) :
    T × SharedWorld T :=
  let r := Shared.index w i token
  (Shared.readLoc r.1 r.2,
   { r.1 with pools := fun j t =>
       if j = i ∧ t = token then none else r.1.pools j t })

/-- BehaviorSt models the mutable state of one Behavior<R(Args...)>
instance: the subscribed set and the current context field ct.  The stored
std::function is modelled as an explicit state transformer passed to the
operations that call it; it receives the ct value in force at the call,
because the wrapped callable reads the ct field of its Behavior. -/
structure BehaviorSt where
  tokens : Finset ℕ
  ct : ℕ
  deriving DecidableEq

/-- FnRef is the target of the reference returned by
Behavior::operator[] for a size_t: the stored function, or the
function-local static default-constructed std::function, which is empty. -/
inductive FnRef where
  | inv : FnRef
  | stored : FnRef
  deriving DecidableEq

/-- Behavior.lookup models Behavior::operator[](const size_t&): a
subscribed id sets ct to the id and yields the stored function; any other
id leaves the state untouched and yields the empty static function. -/
def Behavior.lookup (b : BehaviorSt) (token : ℕ) : BehaviorSt × FnRef :=
  if token ∈ b.tokens then ({ b with ct := token }, FnRef.stored)
  else (b, FnRef.inv)

/-- Behavior.callRef models invoking the std::function behind a FnRef on an
external store state s: the stored function runs the wrapped callable under
the current ct, while the empty static function throws
std::bad_function_call, modelled as the error outcome. -/
def Behavior.callRef {σ : Type} (f : ℕ → σ → σ) (b : BehaviorSt) (r : FnRef)
    (s : σ) : Except Unit σ :=
  match r with
  | FnRef.stored => Except.ok (f b.ct s)
  | FnRef.inv => Except.error ()

/-- Behavior.invokeFor models myToken[behavior](args...): Token::operator[]
copies the function returned by Behavior::operator[] and the copy is
invoked.  The resulting behavior state and the call outcome are returned. -/
def Behavior.invokeFor {σ : Type} (f : ℕ → σ → σ) (b : BehaviorSt) (token : ℕ)
    (s : σ) : BehaviorSt × Except Unit σ :=
  let r := Behavior.lookup b token
  (r.1, Behavior.callRef f r.1 r.2 s)

/-- Behavior.subscribe models token += behavior: tokens.insert(token). -/
def Behavior.subscribe (b : BehaviorSt) (token : ℕ) : BehaviorSt :=
  { b with tokens := insert token b.tokens }

/-- Behavior.unsubscribe models token -= behavior: tokens.erase(token). -/
def Behavior.unsubscribe (b : BehaviorSt) (token : ℕ) : BehaviorSt :=
  { b with tokens := b.tokens.erase token }

/-- Behavior.broadcastRun models the loop body of Behavior::operator():
given the iteration order of the unordered subscribed set as a list, each
step sets ct to the visited member and invokes the stored function on the
external state.  It returns the final ct, the final external state, and the
trace of ct values in force at the successive invocations. -/
def Behavior.broadcastRun {σ : Type} (f : ℕ → σ → σ) :
    List ℕ → ℕ → σ → ℕ × σ × List ℕ
  | [], ct, s => (ct, s, [])
  | t :: ts, _, s =>
      let r := Behavior.broadcastRun f ts t (f t s)
      (r.1, r.2.1, t :: r.2.2)

/-- Behavior.broadcast models Behavior::operator() with one concrete
iteration order of the unordered set (the sorted enumeration of the
Finset); the order-generic facts are proved about Behavior.broadcastRun. -/
def Behavior.broadcast {σ : Type} (f : ℕ → σ → σ) (b : BehaviorSt) (s : σ) :
    BehaviorSt × σ × List ℕ :=
  let r := Behavior.broadcastRun f (b.tokens.sort (fun a b => a ≤ b)) b.ct s
  ({ b with ct := r.1 }, r.2.1, r.2.2)

/-- tokenCounter_eq: after n constructor calls the static counter of
Token::Token() holds n modulo 2 ^ 64. -/
theorem tokenCounter_eq (n : ℕ) : tokenCounter n = n % sizeTMod := by
  induction n with
  | zero => simp [tokenCounter]
  | succ n ih => simp [tokenCounter, tokenNext, ih, Nat.mod_add_mod]

/-- C3 (amended): within the first 2 ^ 64 - 1 constructor calls the id
generator of Token::Token() is strictly monotonic and never yields the
sentinel: the n-th call issues one more than the previous call issued, the
issued id is never 0, and no earlier call issued the same id.  The
unamended claim fails at the 2 ^ 64-th call, where the size_t counter wraps
to 0 (see the counterexample). -/
theorem claim_C3_amended_thm (n : ℕ) (h1 : 0 < n) (h2 : n < sizeTMod) :
    issuedToken n = issuedToken (n - 1) + 1 ∧ issuedToken n ≠ 0 ∧
      ∀ m : ℕ, 0 < m → m < n → issuedToken m ≠ issuedToken n := by
  have hval : ∀ k : ℕ, k < sizeTMod → issuedToken k = k := by
    intro k hk
    simp [issuedToken, tokenCounter_eq, Nat.mod_eq_of_lt hk]
  have hn : issuedToken n = n := hval n h2
  have hp : issuedToken (n - 1) = n - 1 := hval (n - 1) (by omega)
  refine ⟨by omega, by omega, ?_⟩
  intro m hm0 hmn
  have hm : issuedToken m = m := hval m (by omega)
  omega

/-- C3 witness: the third constructor call issues one more than the second,
is nonzero, and collides with no earlier call. -/
theorem claim_C3_amended_wit :
    0 < 3 ∧ 3 < sizeTMod ∧
      (issuedToken 3 = issuedToken (3 - 1) + 1 ∧ issuedToken 3 ≠ 0 ∧
        ∀ m : ℕ, 0 < m → m < 3 → issuedToken m ≠ issuedToken 3) :=
  ⟨by decide, by decide, claim_C3_amended_thm 3 (by decide) (by decide)⟩

/-- C3 counterexample: at the 2 ^ 64-th constructor call the size_t counter
of Token::Token() wraps around, so the sentinel 0 is issued, and the next
call reissues the id of the very first call. -/
theorem claim_C3_cex :
    issuedToken sizeTMod = 0 ∧ issuedToken (sizeTMod + 1) = issuedToken 1 := by
  constructor
  · simp [issuedToken, tokenCounter_eq]
  · simp [issuedToken, tokenCounter_eq, Nat.add_mod_left]

/-- C2 (amended): the associate operation, token + datum = v, performs no
check of the id: associating v with identity 0 changes the mapping by
writing the entry keyed by 0, exactly as for any other key; that entry is
however unreachable through operator[], which for identity 0 keeps
returning the shared static default object. -/
theorem claim_C2_amended_thm (T : Type) [Inhabited T] (w : DatumWorld T)
    (i : ℕ) (v : T) :
    (Datum.assoc w i 0 v).data i 0 = some v ∧
      (Datum.read (Datum.assoc w i 0 v) i 0).1 = w.invalid := by
  constructor
  · simp [Datum.assoc]
  · simp [Datum.read, Datum.index, Datum.readLoc, Datum.assoc]

/-- C2 counterexample: from the empty Datum world, associating 42 with
identity 0 creates an entry keyed by 0, so the mapping does change. -/
theorem claim_C2_cex :
    (Datum.assoc (DatumWorld.mk (0 : ℕ) fun _ _ => none) 0 0 42).data 0 0 =
        some 42 ∧
      (DatumWorld.mk (0 : ℕ) fun _ _ => none).data 0 0 = none := by
  constructor
  · simp [Datum.assoc]
  · rfl

/-- C5: Direct Map Store round trip on a nonzero identity: after
token + datum = v, reading through operator[] yields v, and after
token - datum a further read yields the default-constructed value. -/
theorem claim_C5_thm (T : Type) [Inhabited T] (w : DatumWorld T) (i id : ℕ)
    (v : T) (h : id ≠ 0) :
    (Datum.read (Datum.assoc w i id v) i id).1 = v ∧
      (Datum.read
          (Datum.dissoc (Datum.read (Datum.assoc w i id v) i id).2 i id).2
          i id).1 = (default : T) := by
  constructor
  · simp [Datum.read, Datum.index, Datum.assoc, Datum.readLoc, h]
  · simp [Datum.read, Datum.index, Datum.assoc, Datum.readLoc, Datum.dissoc, h]

/-- C5 witness: the round trip at identity 3 with value 7 in the empty
Datum world over the naturals. -/
theorem claim_C5_wit :
    (3 : ℕ) ≠ 0 ∧
      ((Datum.read
            (Datum.assoc (DatumWorld.mk (0 : ℕ) fun _ _ => none) 0 3 7) 0 3).1 =
          7 ∧
        (Datum.read
            (Datum.dissoc
              (Datum.read
                  (Datum.assoc (DatumWorld.mk (0 : ℕ) fun _ _ => none) 0 3 7)
                  0 3).2
              0 3).2
            0 3).1 = (default : ℕ)) :=
  ⟨by decide,
   claim_C5_thm ℕ (DatumWorld.mk (0 : ℕ) fun _ _ => none) 0 3 7 (by decide)⟩

/-- C1 (amended): for an identity not in the subscribed set, the lookup of
Behavior::operator[] leaves the whole behavior state, in particular the
current context field ct, unchanged, and returns the static
default-constructed std::function, which is empty; invoking it (as
invoke_for does through Token::operator[]) mutates neither the behavior
state nor the external store state, but raises std::bad_function_call
instead of returning normally, so the unamended no-observable-effect claim
fails (see the counterexample). -/
theorem claim_C1_amended_thm {σ : Type} (f : ℕ → σ → σ) (b : BehaviorSt)
    (id : ℕ) (s : σ) (h : id ∉ b.tokens) :
    Behavior.lookup b id = (b, FnRef.inv) ∧
      (Behavior.lookup b id).1.ct = b.ct ∧
      Behavior.invokeFor f b id s = (b, Except.error ()) := by
  refine ⟨?_, ?_, ?_⟩ <;>
    simp [Behavior.lookup, Behavior.invokeFor, Behavior.callRef, h]

/-- C1 witness: looking up the unsubscribed identity 5 on a behavior whose
set holds only 1 leaves the state alone and raises the error outcome. -/
theorem claim_C1_amended_wit :
    5 ∉ (BehaviorSt.mk {1} 0).tokens ∧
      (Behavior.lookup (BehaviorSt.mk {1} 0) 5 = (BehaviorSt.mk {1} 0, FnRef.inv) ∧
        (Behavior.lookup (BehaviorSt.mk {1} 0) 5).1.ct = (BehaviorSt.mk {1} 0).ct ∧
        Behavior.invokeFor (fun _ s => s + 1) (BehaviorSt.mk {1} 0) 5 (0 : ℕ) =
          (BehaviorSt.mk {1} 0, Except.error ())) :=
  ⟨by decide, claim_C1_amended_thm (fun _ s => s + 1) (BehaviorSt.mk {1} 0) 5 0 (by decide)⟩

/-- C1 counterexample: invoking for the unsubscribed identity 5 does not
return normally with the external state unchanged (which is what performing
no observable action would mean); it yields the error outcome that models
the std::bad_function_call thrown by the empty static std::function. -/
theorem claim_C1_cex :
    (Behavior.invokeFor (fun _ s => s + 1) (BehaviorSt.mk ∅ 0) 5 (0 : ℕ)).2 =
        Except.error () ∧
      (Except.error () : Except Unit ℕ) ≠ Except.ok 0 := by
  constructor
  · simp [Behavior.invokeFor, Behavior.lookup, Behavior.callRef]
  · intro hcontra
    exact Except.noConfusion hcontra

/-- broadcastRun_trace: the trace of context values produced by a broadcast
run is exactly the iteration order of the subscribed set. -/
theorem broadcastRun_trace {σ : Type} (f : ℕ → σ → σ) (l : List ℕ) (ct : ℕ)
    (s : σ) : (Behavior.broadcastRun f l ct s).2.2 = l := by
  induction l generalizing ct s with
  | nil => rfl
  | cons t ts ih => simp [Behavior.broadcastRun, ih]

/-- broadcastRun_state: a broadcast run applies the stored callable to the
external state once per list element, in list order. -/
theorem broadcastRun_state {σ : Type} (f : ℕ → σ → σ) (l : List ℕ) (ct : ℕ)
    (s : σ) :
    (Behavior.broadcastRun f l ct s).2.1 =
      List.foldl (fun a t => f t a) s l := by
  induction l generalizing ct s with
  | nil => rfl
  | cons t ts ih => simp [Behavior.broadcastRun, List.foldl, ih]

/-- C4: over any duplicate-free iteration order of the subscribed set, the
broadcast of Behavior::operator() invokes the stored callable exactly once
per member (so exactly card-of-set many times), every invocation happens
under a ct equal to the member being visited (the trace of ct values at the
invocations is the visit order itself), no unsubscribed id is ever visited,
and the external state is the fold of the callable over the visit order. -/
theorem claim_C4_thm {σ : Type} (f : ℕ → σ → σ) (b : BehaviorSt) (l : List ℕ)
    (s : σ) (hnd : l.Nodup) (hset : l.toFinset = b.tokens) :
    (Behavior.broadcastRun f l b.ct s).2.2.length = b.tokens.card ∧
      (∀ m ∈ b.tokens, (Behavior.broadcastRun f l b.ct s).2.2.count m = 1) ∧
      (∀ m ∈ (Behavior.broadcastRun f l b.ct s).2.2, m ∈ b.tokens) ∧
      (Behavior.broadcastRun f l b.ct s).2.2 = l ∧
      (Behavior.broadcastRun f l b.ct s).2.1 =
        List.foldl (fun a t => f t a) s l := by
  have htr := broadcastRun_trace f l b.ct s
  refine ⟨?_, ?_, ?_, htr, broadcastRun_state f l b.ct s⟩
  · rw [htr, ← hset, List.toFinset_card_of_nodup hnd]
  · intro m hm
    rw [htr]
    exact List.count_eq_one_of_mem hnd (by rw [← List.mem_toFinset, hset]; exact hm)
  · intro m hm
    rw [htr] at hm
    rw [← hset, List.mem_toFinset]
    exact hm

/-- C4 witness: broadcasting over the subscribed set of 1, 2 and 3 in the
order 1, 2, 3 invokes the callable three times, once per member, with ct
equal to the visited member each time. -/
theorem claim_C4_wit :
    ([1, 2, 3] : List ℕ).Nodup ∧
      ([1, 2, 3] : List ℕ).toFinset = (BehaviorSt.mk {1, 2, 3} 0).tokens ∧
      ((Behavior.broadcastRun (fun t a => a + t) [1, 2, 3]
              (BehaviorSt.mk {1, 2, 3} 0).ct (0 : ℕ)).2.2.length =
          (BehaviorSt.mk {1, 2, 3} 0).tokens.card ∧
        (∀ m ∈ (BehaviorSt.mk {1, 2, 3} 0).tokens,
          (Behavior.broadcastRun (fun t a => a + t) [1, 2, 3]
              (BehaviorSt.mk {1, 2, 3} 0).ct (0 : ℕ)).2.2.count m = 1) ∧
        (∀ m ∈ (Behavior.broadcastRun (fun t a => a + t) [1, 2, 3]
              (BehaviorSt.mk {1, 2, 3} 0).ct (0 : ℕ)).2.2,
          m ∈ (BehaviorSt.mk {1, 2, 3} 0).tokens) ∧
        (Behavior.broadcastRun (fun t a => a + t) [1, 2, 3]
            (BehaviorSt.mk {1, 2, 3} 0).ct (0 : ℕ)).2.2 = [1, 2, 3] ∧
        (Behavior.broadcastRun (fun t a => a + t) [1, 2, 3]
            (BehaviorSt.mk {1, 2, 3} 0).ct (0 : ℕ)).2.1 =
          List.foldl (fun a t => (fun t a => a + t) t a) (0 : ℕ) [1, 2, 3]) :=
  ⟨by decide, by decide,
   claim_C4_thm (fun t a => a + t) (BehaviorSt.mk {1, 2, 3} 0) [1, 2, 3] 0
     (by decide) (by decide)⟩

/-- C6: for two distinct identities both in the subscribed set of a
Static_Datum instance, the lookup path of any subscribed identity and the
direct access path are one and the same location, so a write of the shared
value through either path is visible to subsequent reads through both
identities; after unsubscribing the first identity, reading it yields the
default-constructed value (the static default object, here assumed still in
its default state) while the second identity still reads the shared value. -/
theorem claim_C6_thm (T : Type) [Inhabited T] (w : StaticWorld T)
    (i id1 id2 idW : ℕ) (v : T) (h1 : id1 ∈ w.tokens i) (h2 : id2 ∈ w.tokens i)
    (hW : idW ∈ w.tokens i) (h12 : id1 ≠ id2) (hinv : w.invalid = default) :
    Static.index w i idW = Static.direct i ∧
      Static.read (Static.writeLoc w (Static.index w i idW) v) i id1 = v ∧
      Static.read (Static.writeLoc w (Static.index w i idW) v) i id2 = v ∧
      Static.read
          (Static.unsubscribe (Static.writeLoc w (Static.index w i idW) v) i id1)
          i id1 = (default : T) ∧
      Static.read
          (Static.unsubscribe (Static.writeLoc w (Static.index w i idW) v) i id1)
          i id2 = v := by
  have hidx : Static.index w i idW = Static.direct i := by
    simp [Static.index, Static.direct, hW]
  rw [hidx]
  refine ⟨rfl, ?_, ?_, ?_, ?_⟩ <;>
    simp [Static.read, Static.index, Static.direct, Static.readLoc,
      Static.writeLoc, Static.unsubscribe, Finset.mem_erase, h1, h2, hinv,
      Ne.symm h12]

/-- C6 witness: identities 1 and 2 subscribed to instance 0, the write of 9
through the lookup of identity 1, and the later unsubscription of 1. -/
theorem claim_C6_wit :
    1 ∈ (StaticWorld.mk (0 : ℕ) (fun _ => 0) fun _ => {1, 2}).tokens 0 ∧
      2 ∈ (StaticWorld.mk (0 : ℕ) (fun _ => 0) fun _ => {1, 2}).tokens 0 ∧
      (1 : ℕ) ≠ 2 ∧
      (StaticWorld.mk (0 : ℕ) (fun _ => 0) fun _ => {1, 2}).invalid = default ∧
      (Static.index (StaticWorld.mk (0 : ℕ) (fun _ => 0) fun _ => {1, 2}) 0 1 =
          Static.direct 0 ∧
        Static.read
            (Static.writeLoc (StaticWorld.mk (0 : ℕ) (fun _ => 0) fun _ => {1, 2})
              (Static.index (StaticWorld.mk (0 : ℕ) (fun _ => 0) fun _ => {1, 2}) 0 1)
              9)
            0 1 = 9 ∧
        Static.read
            (Static.writeLoc (StaticWorld.mk (0 : ℕ) (fun _ => 0) fun _ => {1, 2})
              (Static.index (StaticWorld.mk (0 : ℕ) (fun _ => 0) fun _ => {1, 2}) 0 1)
              9)
            0 2 = 9 ∧
        Static.read
            (Static.unsubscribe
              (Static.writeLoc (StaticWorld.mk (0 : ℕ) (fun _ => 0) fun _ => {1, 2})
                (Static.index (StaticWorld.mk (0 : ℕ) (fun _ => 0) fun _ => {1, 2}) 0 1)
                9)
              0 1)
            0 1 = (default : ℕ) ∧
        Static.read
            (Static.unsubscribe
              (Static.writeLoc (StaticWorld.mk (0 : ℕ) (fun _ => 0) fun _ => {1, 2})
                (Static.index (StaticWorld.mk (0 : ℕ) (fun _ => 0) fun _ => {1, 2}) 0 1)
                9)
              0 1)
            0 2 = 9) :=
  ⟨by decide, by decide, by decide, by decide,
   claim_C6_thm ℕ (StaticWorld.mk (0 : ℕ) (fun _ => 0) fun _ => {1, 2}) 0 1 2 1 9
     (by decide) (by decide) (by decide) (by decide) (by decide)⟩

/-- succ_mod_ne: incrementing modulo m never returns to the same residue
when m exceeds 1 and the residue is already reduced. -/
theorem succ_mod_ne (m c : ℕ) (h1 : 1 < m) (hc : c < m) : (c + 1) % m ≠ c := by
  intro he
  rcases Nat.lt_or_ge (c + 1) m with h | h
  · rw [Nat.mod_eq_of_lt h] at he
    omega
  · have hcm : c + 1 = m := by omega
    rw [hcm, Nat.mod_self] at he
    omega

/-- C7: after token idA opens a new pool with value v (operator+) and idB
joins the latest pool (operator>>), both read v through operator[]; a
subsequent pool creation for a distinct identity idC with value v2 maps idC
to a different pool id than idA, idC reads v2 while idA still reads v, and
the two reads differ whenever v2 differs from v. -/
theorem claim_C7_thm (T : Type) [Inhabited T] (w : SharedWorld T)
    (i idA idB idC : ℕ) (v v2 : T) (hCA : idC ≠ idA) (hv : v2 ≠ v) :
    (Shared.read (Shared.joinLatest (Shared.createPoolFor w i idA v) i idB)
        i idA).1 = v ∧
      (Shared.read (Shared.joinLatest (Shared.createPoolFor w i idA v) i idB)
          i idB).1 = v ∧
      (Shared.createPoolFor
            (Shared.joinLatest (Shared.createPoolFor w i idA v) i idB) i idC
            v2).pools i idC ≠
        (Shared.createPoolFor
            (Shared.joinLatest (Shared.createPoolFor w i idA v) i idB) i idC
            v2).pools i idA ∧
      (Shared.read
          (Shared.createPoolFor
            (Shared.joinLatest (Shared.createPoolFor w i idA v) i idB) i idC v2)
          i idC).1 = v2 ∧
      (Shared.read
          (Shared.createPoolFor
            (Shared.joinLatest (Shared.createPoolFor w i idA v) i idB) i idC v2)
          i idA).1 = v ∧
      (Shared.read
          (Shared.createPoolFor
            (Shared.joinLatest (Shared.createPoolFor w i idA v) i idB) i idC v2)
          i idC).1 ≠
        (Shared.read
            (Shared.createPoolFor
              (Shared.joinLatest (Shared.createPoolFor w i idA v) i idB) i idC
              v2)
            i idA).1 := by
  have hM : 1 < sizeTMod := by norm_num [sizeTMod]
  have hc1lt : (w.count i + 1) % sizeTMod < sizeTMod := Nat.mod_lt _ (by omega)
  have hne : (w.count i + 1 + 1) % sizeTMod ≠ (w.count i + 1) % sizeTMod := by
    have h0 := succ_mod_ne sizeTMod ((w.count i + 1) % sizeTMod) hM hc1lt
    rwa [Nat.mod_add_mod] at h0
  have hp2A : (Shared.joinLatest (Shared.createPoolFor w i idA v) i idB).pools
      i idA = some ((w.count i + 1) % sizeTMod) := by
    by_cases h : idA = idB <;> simp [Shared.joinLatest, Shared.createPoolFor, h]
  have hp2B : (Shared.joinLatest (Shared.createPoolFor w i idA v) i idB).pools
      i idB = some ((w.count i + 1) % sizeTMod) := by
    simp [Shared.joinLatest, Shared.createPoolFor]
  have hd2 : (Shared.joinLatest (Shared.createPoolFor w i idA v) i idB).data i
      ((w.count i + 1) % sizeTMod) = some v := by
    simp [Shared.joinLatest, Shared.createPoolFor]
  have hp3C : (Shared.createPoolFor
      (Shared.joinLatest (Shared.createPoolFor w i idA v) i idB) i idC
      v2).pools i idC = some ((w.count i + 1 + 1) % sizeTMod) := by
    simp [Shared.createPoolFor, Shared.joinLatest]
  have hp3A : (Shared.createPoolFor
      (Shared.joinLatest (Shared.createPoolFor w i idA v) i idB) i idC
      v2).pools i idA = some ((w.count i + 1) % sizeTMod) := by
    by_cases h : idA = idB
    · subst h
      simp [Shared.createPoolFor, Shared.joinLatest, Ne.symm hCA]
    · simp [Shared.createPoolFor, Shared.joinLatest, h, Ne.symm hCA]
  have hd3C : (Shared.createPoolFor
      (Shared.joinLatest (Shared.createPoolFor w i idA v) i idB) i idC
      v2).data i ((w.count i + 1 + 1) % sizeTMod) = some v2 := by
    simp [Shared.createPoolFor, Shared.joinLatest]
  have hd3A : (Shared.createPoolFor
      (Shared.joinLatest (Shared.createPoolFor w i idA v) i idB) i idC
      v2).data i ((w.count i + 1) % sizeTMod) = some v := by
    simp [Shared.createPoolFor, Shared.joinLatest, Ne.symm hne]
  have g1 : (Shared.read
      (Shared.joinLatest (Shared.createPoolFor w i idA v) i idB) i idA).1 = v := by
    simp [Shared.read, Shared.index, Shared.readLoc, hp2A, hd2]
  have g2 : (Shared.read
      (Shared.joinLatest (Shared.createPoolFor w i idA v) i idB) i idB).1 = v := by
    simp [Shared.read, Shared.index, Shared.readLoc, hp2B, hd2]
  have g4 : (Shared.read
      (Shared.createPoolFor
        (Shared.joinLatest (Shared.createPoolFor w i idA v) i idB) i idC v2)
      i idC).1 = v2 := by
    simp [Shared.read, Shared.index, Shared.readLoc, hp3C, hd3C]
  have g5 : (Shared.read
      (Shared.createPoolFor
        (Shared.joinLatest (Shared.createPoolFor w i idA v) i idB) i idC v2)
      i idA).1 = v := by
    simp [Shared.read, Shared.index, Shared.readLoc, hp3A, hd3A]
  refine ⟨g1, g2, ?_, g4, g5, ?_⟩
  · rw [hp3C, hp3A]
    simp only [ne_eq, Option.some.injEq]
    exact hne
  · rw [g4, g5]
    exact hv

/-- C7 witness: identity 1 opens a pool with value 10, identity 2 joins it,
identity 3 then opens its own pool with value 20, all on instance 0 of the
empty Shared_Datum world over the naturals. -/
theorem claim_C7_wit :
    (3 : ℕ) ≠ 1 ∧ (20 : ℕ) ≠ 10 ∧
      ((Shared.read
            (Shared.joinLatest
              (Shared.createPoolFor
                (SharedWorld.mk (0 : ℕ) (fun _ _ => none) (fun _ _ => none)
                  fun _ => 0)
                0 1 10)
              0 2)
            0 1).1 = 10 ∧
        (Shared.read
            (Shared.joinLatest
              (Shared.createPoolFor
                (SharedWorld.mk (0 : ℕ) (fun _ _ => none) (fun _ _ => none)
                  fun _ => 0)
                0 1 10)
              0 2)
            0 2).1 = 10 ∧
        (Shared.createPoolFor
              (Shared.joinLatest
                (Shared.createPoolFor
                  (SharedWorld.mk (0 : ℕ) (fun _ _ => none) (fun _ _ => none)
                    fun _ => 0)
                  0 1 10)
                0 2)
              0 3 20).pools 0 3 ≠
          (Shared.createPoolFor
              (Shared.joinLatest
                (Shared.createPoolFor
                  (SharedWorld.mk (0 : ℕ) (fun _ _ => none) (fun _ _ => none)
                    fun _ => 0)
                  0 1 10)
                0 2)
              0 3 20).pools 0 1 ∧
        (Shared.read
            (Shared.createPoolFor
              (Shared.joinLatest
                (Shared.createPoolFor
                  (SharedWorld.mk (0 : ℕ) (fun _ _ => none) (fun _ _ => none)
                    fun _ => 0)
                  0 1 10)
                0 2)
              0 3 20)
            0 3).1 = 20 ∧
        (Shared.read
            (Shared.createPoolFor
              (Shared.joinLatest
                (Shared.createPoolFor
                  (SharedWorld.mk (0 : ℕ) (fun _ _ => none) (fun _ _ => none)
                    fun _ => 0)
                  0 1 10)
                0 2)
              0 3 20)
            0 1).1 = 10 ∧
        (Shared.read
            (Shared.createPoolFor
              (Shared.joinLatest
                (Shared.createPoolFor
                  (SharedWorld.mk (0 : ℕ) (fun _ _ => none) (fun _ _ => none)
                    fun _ => 0)
                  0 1 10)
                0 2)
              0 3 20)
            0 3).1 ≠
          (Shared.read
              (Shared.createPoolFor
                (Shared.joinLatest
                  (Shared.createPoolFor
                    (SharedWorld.mk (0 : ℕ) (fun _ _ => none) (fun _ _ => none)
                      fun _ => 0)
                    0 1 10)
                  0 2)
                0 3 20)
              0 1).1) :=
  ⟨by decide, by decide,
   claim_C7_thm ℕ
     (SharedWorld.mk (0 : ℕ) (fun _ _ => none) (fun _ _ => none) fun _ => 0)
     0 1 2 3 10 20 (by decide) (by decide)⟩

/-- C8: unsubscription and removal on absent associations are no-ops on the
state: erasing a non-member from the subscribed set of a Static_Datum or a
Behavior, removing from a Datum a key with no entry, and removing from a
Shared_Datum an identity with no pool mapping, each return the state they
were given, and none of these operations has an error outcome. -/
theorem claim_C8_thm (T : Type) [Inhabited T] (wS : StaticWorld T)
    (wD : DatumWorld T) (wH : SharedWorld T) (b : BehaviorSt) (i id : ℕ)
    (h1 : id ∉ wS.tokens i) (h2 : id ∉ b.tokens)
    (h3 : wD.data i id = none) (h4 : wH.pools i id = none) :
    Static.unsubscribe wS i id = wS ∧
      Behavior.unsubscribe b id = b ∧
      (Datum.dissoc wD i id).2 = wD ∧
      (Shared.leave wH i id).2 = wH := by
  refine ⟨?_, ?_, ?_, ?_⟩
  · have hfun : (fun j => if j = i then (wS.tokens j).erase id else wS.tokens j)
        = wS.tokens := by
      funext j
      rcases eq_or_ne j i with h | h
      · rw [h]
        simp [Finset.erase_eq_of_not_mem h1]
      · simp [h]
    simp [Static.unsubscribe, hfun]
  · obtain ⟨tok, ct⟩ := b
    simp only [Behavior.unsubscribe, BehaviorSt.mk.injEq, and_true]
    exact Finset.erase_eq_of_not_mem h2
  · by_cases h : id = 0
    · subst h
      have hfun : (fun j k => if j = i ∧ k = 0 then none else wD.data j k)
          = wD.data := by
        funext j k
        rcases Decidable.em (j = i ∧ k = 0) with hjk | hjk
        · rw [if_pos hjk, hjk.1, hjk.2, h3]
        · rw [if_neg hjk]
      simp [Datum.dissoc, Datum.index, hfun]
    · have hfun : (fun j k => if j = i ∧ k = id then none else
          if j = i ∧ k = id then some default else wD.data j k) = wD.data := by
        funext j k
        rcases Decidable.em (j = i ∧ k = id) with hjk | hjk
        · rw [if_pos hjk, hjk.1, hjk.2, h3]
        · rw [if_neg hjk, if_neg hjk]
      simp [Datum.dissoc, Datum.index, h, h3, hfun]
  · have hfun : (fun j t => if j = i ∧ t = id then none else wH.pools j t)
        = wH.pools := by
      funext j t
      rcases Decidable.em (j = i ∧ t = id) with hjt | hjt
      · rw [if_pos hjt, hjt.1, hjt.2, h4]
      · rw [if_neg hjt]
    simp [Shared.leave, Shared.index, h4, hfun]

/-- C8 witness: identity 3, absent everywhere, is unsubscribed and removed
from empty stores over the naturals, leaving each state unchanged. -/
theorem claim_C8_wit :
    3 ∉ (StaticWorld.mk (0 : ℕ) (fun _ => 0) fun _ => ∅).tokens 0 ∧
      3 ∉ (BehaviorSt.mk ∅ 0).tokens ∧
      (DatumWorld.mk (0 : ℕ) fun _ _ => none).data 0 3 = none ∧
      (SharedWorld.mk (0 : ℕ) (fun _ _ => none) (fun _ _ => none)
          fun _ => 0).pools 0 3 = none ∧
      (Static.unsubscribe (StaticWorld.mk (0 : ℕ) (fun _ => 0) fun _ => ∅) 0 3 =
          StaticWorld.mk (0 : ℕ) (fun _ => 0) fun _ => ∅) ∧
      Behavior.unsubscribe (BehaviorSt.mk ∅ 0) 3 = BehaviorSt.mk ∅ 0 ∧
      (Datum.dissoc (DatumWorld.mk (0 : ℕ) fun _ _ => none) 0 3).2 =
        DatumWorld.mk (0 : ℕ) (fun _ _ => none) ∧
      (Shared.leave
          (SharedWorld.mk (0 : ℕ) (fun _ _ => none) (fun _ _ => none)
            fun _ => 0)
          0 3).2 =
        SharedWorld.mk (0 : ℕ) (fun _ _ => none) (fun _ _ => none) fun _ => 0 :=
  ⟨by decide, by decide, rfl, rfl,
   (claim_C8_thm ℕ (StaticWorld.mk (0 : ℕ) (fun _ => 0) fun _ => ∅)
       (DatumWorld.mk (0 : ℕ) fun _ _ => none)
       (SharedWorld.mk (0 : ℕ) (fun _ _ => none) (fun _ _ => none) fun _ => 0)
       (BehaviorSt.mk ∅ 0) 0 3 (by decide) (by decide) rfl rfl).1,
   (claim_C8_thm ℕ (StaticWorld.mk (0 : ℕ) (fun _ => 0) fun _ => ∅)
       (DatumWorld.mk (0 : ℕ) fun _ _ => none)
       (SharedWorld.mk (0 : ℕ) (fun _ _ => none) (fun _ _ => none) fun _ => 0)
       (BehaviorSt.mk ∅ 0) 0 3 (by decide) (by decide) rfl rfl).2.1,
   (claim_C8_thm ℕ (StaticWorld.mk (0 : ℕ) (fun _ => 0) fun _ => ∅)
       (DatumWorld.mk (0 : ℕ) fun _ _ => none)
       (SharedWorld.mk (0 : ℕ) (fun _ _ => none) (fun _ _ => none) fun _ => 0)
       (BehaviorSt.mk ∅ 0) 0 3 (by decide) (by decide) rfl rfl).2.2.1,
   (claim_C8_thm ℕ (StaticWorld.mk (0 : ℕ) (fun _ => 0) fun _ => ∅)
       (DatumWorld.mk (0 : ℕ) fun _ _ => none)
       (SharedWorld.mk (0 : ℕ) (fun _ _ => none) (fun _ _ => none) fun _ => 0)
       (BehaviorSt.mk ∅ 0) 0 3 (by decide) (by decide) rfl rfl).2.2.2⟩

/-- C9: in all four store kinds a failed lookup returns a reference to the
one static default object shared by the whole template instantiation, not a
fresh default value: writing v through the location handed out by a failed
lookup (identity 0 on a Datum, a non-member on a Static_Datum, a non-owner
on a Solitary_Datum, an unpooled identity on a Shared_Datum) makes every
later failed lookup of the same store kind and element type, on any
instance and any failing identity, read back v instead of the default. -/
theorem claim_C9_thm (T : Type) [Inhabited T] (wD : DatumWorld T)
    (wS : StaticWorld T) (wL : SolitaryWorld T) (wH : SharedWorld T)
    (iD1 iD2 iS1 iS2 idS1 idS2 iL1 iL2 idL1 idL2 iH1 iH2 idH1 idH2 : ℕ)
    (v : T)
    (hS1 : idS1 ∉ wS.tokens iS1) (hS2 : idS2 ∉ wS.tokens iS2)
    (hL1 : idL1 ≠ wL.token iL1) (hL2 : idL2 ≠ wL.token iL2)
    (hH1 : wH.pools iH1 idH1 = none) (hH2 : wH.pools iH2 idH2 = none) :
    ((Datum.index wD iD1 0).2 = DatumLoc.inv ∧
        (Datum.read
            (Datum.writeLoc (Datum.index wD iD1 0).1 (Datum.index wD iD1 0).2 v)
            iD2 0).1 = v) ∧
      (Static.index wS iS1 idS1 = StaticLoc.inv ∧
        Static.read (Static.writeLoc wS (Static.index wS iS1 idS1) v) iS2
          idS2 = v) ∧
      (Solitary.index wL iL1 idL1 = SolitaryLoc.inv ∧
        Solitary.read (Solitary.writeLoc wL (Solitary.index wL iL1 idL1) v) iL2
          idL2 = v) ∧
      ((Shared.index wH iH1 idH1).2 = SharedLoc.inv ∧
        (Shared.read
            (Shared.writeLoc (Shared.index wH iH1 idH1).1
              (Shared.index wH iH1 idH1).2 v)
            iH2 idH2).1 = v) := by
  refine ⟨⟨?_, ?_⟩, ⟨?_, ?_⟩, ⟨?_, ?_⟩, ⟨?_, ?_⟩⟩
  · simp [Datum.index]
  · simp [Datum.index, Datum.read, Datum.readLoc, Datum.writeLoc]
  · simp [Static.index, hS1]
  · simp [Static.index, Static.read, Static.readLoc, Static.writeLoc, hS1, hS2]
  · simp [Solitary.index, hL1]
  · simp [Solitary.index, Solitary.read, Solitary.readLoc, Solitary.writeLoc,
      hL1, hL2]
  · simp [Shared.index, hH1]
  · simp [Shared.index, Shared.read, Shared.readLoc, Shared.writeLoc, hH1, hH2]

/-- C9 witness: in the empty worlds over the naturals, a write of 5 through
the location of a failed lookup on instance 0 is read back by a later
failed lookup on the other instance 1 for every store kind. -/
theorem claim_C9_wit :
    3 ∉ (StaticWorld.mk (0 : ℕ) (fun _ => 0) fun _ => ∅).tokens 0 ∧
      4 ∉ (StaticWorld.mk (0 : ℕ) (fun _ => 0) fun _ => ∅).tokens 1 ∧
      3 ≠ (SolitaryWorld.mk (0 : ℕ) (fun _ => 0) fun _ => 0).token 0 ∧
      4 ≠ (SolitaryWorld.mk (0 : ℕ) (fun _ => 0) fun _ => 0).token 1 ∧
      (SharedWorld.mk (0 : ℕ) (fun _ _ => none) (fun _ _ => none)
          fun _ => 0).pools 0 3 = none ∧
      (SharedWorld.mk (0 : ℕ) (fun _ _ => none) (fun _ _ => none)
          fun _ => 0).pools 1 4 = none ∧
      (((Datum.index (DatumWorld.mk (0 : ℕ) fun _ _ => none) 0 0).2 =
            DatumLoc.inv ∧
          (Datum.read
              (Datum.writeLoc
                (Datum.index (DatumWorld.mk (0 : ℕ) fun _ _ => none) 0 0).1
                (Datum.index (DatumWorld.mk (0 : ℕ) fun _ _ => none) 0 0).2 5)
              1 0).1 = 5) ∧
        (Static.index (StaticWorld.mk (0 : ℕ) (fun _ => 0) fun _ => ∅) 0 3 =
            StaticLoc.inv ∧
          Static.read
            (Static.writeLoc (StaticWorld.mk (0 : ℕ) (fun _ => 0) fun _ => ∅)
              (Static.index (StaticWorld.mk (0 : ℕ) (fun _ => 0) fun _ => ∅) 0 3)
              5)
            1 4 = 5) ∧
        (Solitary.index (SolitaryWorld.mk (0 : ℕ) (fun _ => 0) fun _ => 0) 0 3 =
            SolitaryLoc.inv ∧
          Solitary.read
            (Solitary.writeLoc
              (SolitaryWorld.mk (0 : ℕ) (fun _ => 0) fun _ => 0)
              (Solitary.index (SolitaryWorld.mk (0 : ℕ) (fun _ => 0) fun _ => 0)
                0 3)
              5)
            1 4 = 5) ∧
        ((Shared.index
              (SharedWorld.mk (0 : ℕ) (fun _ _ => none) (fun _ _ => none)
                fun _ => 0)
              0 3).2 = SharedLoc.inv ∧
          (Shared.read
              (Shared.writeLoc
                (Shared.index
                    (SharedWorld.mk (0 : ℕ) (fun _ _ => none) (fun _ _ => none)
                      fun _ => 0)
                    0 3).1
                (Shared.index
                    (SharedWorld.mk (0 : ℕ) (fun _ _ => none) (fun _ _ => none)
                      fun _ => 0)
                    0 3).2 5)
              1 4).1 = 5)) :=
  ⟨by decide, by decide, by decide, by decide, rfl, rfl,
   claim_C9_thm ℕ (DatumWorld.mk (0 : ℕ) fun _ _ => none)
     (StaticWorld.mk (0 : ℕ) (fun _ => 0) fun _ => ∅)
     (SolitaryWorld.mk (0 : ℕ) (fun _ => 0) fun _ => 0)
     (SharedWorld.mk (0 : ℕ) (fun _ _ => none) (fun _ _ => none) fun _ => 0)
     0 1 0 1 3 4 0 1 3 4 0 1 3 4 5
     (by decide) (by decide) (by decide) (by decide) rfl rfl⟩

/-- C10: when a Solitary_Datum instance is unbound (its owner field holds
the sentinel 0, its initialised value), a lookup with identity 0 passes the
owner comparison and yields a reference to the stored value itself rather
than to the static default object, so identity 0 can read the stored value
and write it. -/
theorem claim_C10_thm (T : Type) [Inhabited T] (w : SolitaryWorld T) (i : ℕ)
    (v : T) (h : w.token i = 0) :
    Solitary.index w i 0 = SolitaryLoc.dat i ∧
      Solitary.index w i 0 ≠ SolitaryLoc.inv ∧
      Solitary.read w i 0 = w.data i ∧
      (Solitary.writeLoc w (Solitary.index w i 0) v).data i = v := by
  have hidx : Solitary.index w i 0 = SolitaryLoc.dat i := by
    simp [Solitary.index, h]
  refine ⟨hidx, ?_, ?_, ?_⟩
  · rw [hidx]
    intro hc
    exact SolitaryLoc.noConfusion hc
  · simp [Solitary.read, hidx, Solitary.readLoc]
  · rw [hidx]
    simp [Solitary.writeLoc]

/-- C10 witness: an unbound Solitary_Datum instance holding 7 is read as 7
by identity 0, which can also overwrite it with 9. -/
theorem claim_C10_wit :
    (SolitaryWorld.mk (0 : ℕ) (fun _ => 7) fun _ => 0).token 0 = 0 ∧
      (Solitary.index (SolitaryWorld.mk (0 : ℕ) (fun _ => 7) fun _ => 0) 0 0 =
          SolitaryLoc.dat 0 ∧
        Solitary.index (SolitaryWorld.mk (0 : ℕ) (fun _ => 7) fun _ => 0) 0 0 ≠
          SolitaryLoc.inv ∧
        Solitary.read (SolitaryWorld.mk (0 : ℕ) (fun _ => 7) fun _ => 0) 0 0 =
          (SolitaryWorld.mk (0 : ℕ) (fun _ => 7) fun _ => 0).data 0 ∧
        (Solitary.writeLoc (SolitaryWorld.mk (0 : ℕ) (fun _ => 7) fun _ => 0)
            (Solitary.index (SolitaryWorld.mk (0 : ℕ) (fun _ => 7) fun _ => 0)
              0 0)
            9).data 0 = 9) :=
  ⟨rfl,
   claim_C10_thm ℕ (SolitaryWorld.mk (0 : ℕ) (fun _ => 7) fun _ => 0) 0 9 rfl⟩
